import Mathlib

/-!
Verification of the pump.fun bonding-curve graduation estimator of the
bundly-agent-sdk repository (`src/instructions.js`,
`calculateMinTokensForGraduation` and its consumer
`buildFinalizePumpfunInstruction`).

The JavaScript source performs all arithmetic on BN.js big integers
(arbitrary precision, division truncating toward zero).  The shallow
embedding below uses `Int` together with `Int.tdiv`, which is exactly
BN.js division semantics.  The escrow balance is an on-chain lamport
balance, hence a natural number.
-/

namespace BundlyAgent

/-- Constant `VIRTUAL_SOL_RESERVES` from the source: 30 SOL in lamports. -/
def VIRTUAL_SOL_RESERVES : Int := 30000000000

/-- Constant `VIRTUAL_TOKEN_RESERVES` from the source: 1.073B tokens, 6 decimals. -/
def VIRTUAL_TOKEN_RESERVES : Int := 1073000000000000

/-- Constant `INITIAL_REAL_TOKEN_RESERVES` from the source: 793.1M tokens available. -/
def INITIAL_REAL_TOKEN_RESERVES : Int := 793100000000000

/-- Constant `ESTIMATED_COSTS` from the source: 14.5M lamports of rent and buffer. -/
def ESTIMATED_COSTS : Int := 14500000

/-- Constant `GRADUATION_THRESHOLD` from the source: 85 SOL in lamports. -/
def GRADUATION_THRESHOLD : Int := 85000000000

/-- Source line `const SOL_TO_SPEND = escrowBalanceBN.sub(ESTIMATED_COSTS)`:
the spendable balance after the estimated fixed costs (may be negative). -/
def SOL_TO_SPEND (escrowBalance : Nat) : Int :=
  (escrowBalance : Int) - ESTIMATED_COSTS

/-- Source line `const k = initialSol.mul(initialTokens)`: the constant product,
with `initialSol = VIRTUAL_SOL_RESERVES` and `initialTokens = VIRTUAL_TOKEN_RESERVES`. -/
def k : Int := VIRTUAL_SOL_RESERVES * VIRTUAL_TOKEN_RESERVES

/-- Source line `const finalSol = VIRTUAL_SOL_RESERVES.add(SOL_TO_SPEND)`. -/
def finalSol (escrowBalance : Nat) : Int :=
  VIRTUAL_SOL_RESERVES + SOL_TO_SPEND escrowBalance

/-- Source line `const finalTokens = k.div(finalSol)`; BN division truncates
toward zero, which is `Int.tdiv`. -/
def finalTokens (escrowBalance : Nat) : Int :=
  Int.tdiv k (finalSol escrowBalance)

/-- Source line `const tokensOut = initialTokens.sub(finalTokens)`: the
expected token output before the slippage margin. -/
def tokensOut (escrowBalance : Nat) : Int :=
  VIRTUAL_TOKEN_RESERVES - finalTokens escrowBalance

/-- Shallow embedding of `calculateMinTokensForGraduation` from
`src/instructions.js` (the returned BN value; console output is dropped).
The source computes `minTokensOut = tokensOut.mul(90).div(100)`, returns 0
when `tokensOut <= 0`, returns `INITIAL_REAL_TOKEN_RESERVES * 90 / 100`
when `tokensOut > INITIAL_REAL_TOKEN_RESERVES`, and returns `minTokensOut`
otherwise. -/
def calculateMinTokensForGraduation (escrowBalance : Nat) : Int :=
  let minTokensOut := Int.tdiv (tokensOut escrowBalance * 90) 100
  if tokensOut escrowBalance ≤ 0 then 0
  else if INITIAL_REAL_TOKEN_RESERVES < tokensOut escrowBalance then
    Int.tdiv (INITIAL_REAL_TOKEN_RESERVES * 90) 100
  else minTokensOut

/-- The same routine together with the observable outcome of the
`SOL_TO_SPEND.lt(GRADUATION_THRESHOLD)` comparison of the source (which only
drives a console warning): the second component records whether the
graduation warning fires. -/
def calculateMinTokensForGraduationWithWarning (escrowBalance : Nat) : Int × Bool :=
  let warn : Bool := decide (SOL_TO_SPEND escrowBalance < GRADUATION_THRESHOLD)
  let minTokensOut := Int.tdiv (tokensOut escrowBalance * 90) 100
  if tokensOut escrowBalance ≤ 0 then (0, warn)
  else if INITIAL_REAL_TOKEN_RESERVES < tokensOut escrowBalance then
    (Int.tdiv (INITIAL_REAL_TOKEN_RESERVES * 90) 100, warn)
  else (minTokensOut, warn)

/-- Shallow embedding of the `minTokensBN` selection in
`buildFinalizePumpfunInstruction`: the JS parameter defaults to `null`
(modelled as `none`); `if (minTokensOut === null)` the estimator runs on the
escrow balance, otherwise the instruction carries `new BN(minTokensOut)`. -/
def buildFinalizeMinTokens (escrowBalance : Nat) (minTokensOut : Option Int) : Int :=
  match minTokensOut with
  | none => calculateMinTokensForGraduation escrowBalance
  | some v => v

/-! Bridging lemmas from the `Int` embedding to `Nat` arithmetic. -/

theorem finalSol_eq (e : Nat) :
    finalSol e = ((e + 29985500000 : Nat) : Int) := by
  simp only [finalSol, SOL_TO_SPEND, VIRTUAL_SOL_RESERVES, ESTIMATED_COSTS]
  push_cast
  ring

theorem finalTokens_eq (e : Nat) :
    finalTokens e = ((32190000000000000000000000 / (e + 29985500000) : Nat) : Int) := by
  have hk : k = ((32190000000000000000000000 : Nat) : Int) := by decide
  rw [finalTokens, finalSol_eq, hk, ← Int.ofNat_tdiv]

theorem tokensOut_eq (e : Nat) :
    tokensOut e =
      (1073000000000000 : Int)
        - ((32190000000000000000000000 / (e + 29985500000) : Nat) : Int) := by
  rw [tokensOut, finalTokens_eq]
  rfl

theorem tokensOut_nonpos_iff (e : Nat) : tokensOut e ≤ 0 ↔ e ≤ 14500000 := by
  rw [tokensOut_eq]
  have hpos : 0 < e + 29985500000 := by omega
  have hdiv :
      1073000000000000 ≤ 32190000000000000000000000 / (e + 29985500000) ↔
        1073000000000000 * (e + 29985500000) ≤ 32190000000000000000000000 :=
    Nat.le_div_iff_mul_le hpos
  omega

theorem spend_nonpos_iff (e : Nat) : SOL_TO_SPEND e ≤ 0 ↔ e ≤ 14500000 := by
  simp only [SOL_TO_SPEND, ESTIMATED_COSTS]
  omega

theorem div_antitone (M b1 b2 : Nat) (h1 : 0 < b1) (h12 : b1 ≤ b2) :
    M / b2 ≤ M / b1 :=
  Nat.div_le_div_left h12 h1

theorem tokensOut_lower (e : Nat) (h : 14500001 ≤ e) : 35767 ≤ tokensOut e := by
  rw [tokensOut_eq]
  have hmono :
      32190000000000000000000000 / (e + 29985500000) ≤
        32190000000000000000000000 / 30000000001 :=
    div_antitone _ _ _ (by omega) (by omega)
  have hval : (32190000000000000000000000 : Nat) / 30000000001 = 1072999999964233 := by
    decide
  omega

theorem calc_branches (e : Nat) :
    calculateMinTokensForGraduation e =
      if tokensOut e ≤ 0 then 0
      else if INITIAL_REAL_TOKEN_RESERVES < tokensOut e then
        Int.tdiv (INITIAL_REAL_TOKEN_RESERVES * 90) 100
      else Int.tdiv (tokensOut e * 90) 100 := rfl

theorem tdiv_90_100_eq (t : Int) (h : 0 ≤ t) :
    Int.tdiv (t * 90) 100 = ((t.toNat * 90 / 100 : Nat) : Int) := by
  have ht : ((t.toNat : Nat) : Int) = t := Int.toNat_of_nonneg h
  have h1 : t * 90 = ((t.toNat * 90 : Nat) : Int) := by
    push_cast
    rw [ht]
  have h2 : (100 : Int) = ((100 : Nat) : Int) := by norm_num
  rw [h1, h2, ← Int.ofNat_tdiv]

theorem nat_mul90_div100_le (n : Nat) : n * 90 / 100 ≤ n := by
  have h1 : n * 90 ≤ n * 100 := Nat.mul_le_mul (le_refl n) (by norm_num)
  have h2 : n * 90 / 100 ≤ n * 100 / 100 := Nat.div_le_div_right h1
  have h3 : n * 100 / 100 = n := Nat.mul_div_cancel n (by norm_num)
  omega

theorem div_strict_anti (M b1 b2 : Nat) (h1 : 0 < b1) (h12 : b1 < b2)
    (hbb : b2 * b2 ≤ M) : M / b2 < M / b1 := by
  have hb2 : 0 < b2 := by omega
  have hq : b1 ≤ M / b2 := by
    apply (Nat.le_div_iff_mul_le hb2).2
    exact le_trans (Nat.mul_le_mul (le_of_lt h12) (le_refl b2)) hbb
  have hmul : M / b2 * b2 ≤ M := Nat.div_mul_le_self M b2
  have hkey : (M / b2 + 1) * b1 ≤ M := by
    have e1 : (M / b2 + 1) * b1 = M / b2 * b1 + b1 := by ring
    rw [e1]
    calc M / b2 * b1 + b1
        ≤ M / b2 * b1 + M / b2 := Nat.add_le_add_left hq _
      _ = M / b2 * (b1 + 1) := by ring
      _ ≤ M / b2 * b2 := Nat.mul_le_mul (le_refl _) (by omega)
      _ ≤ M := hmul
  exact Nat.lt_of_succ_le ((Nat.le_div_iff_mul_le h1).2 hkey)

/-! Claim theorems. -/

/-- Claim C1, counterexample: at escrowBalance = 100 000 000 000 the estimator
does not return tokensExpected * 90 / 100, refuting the golden-value scenario
as stated (the ceiling clamp fires instead). -/
theorem golden_scenario_counterexample :
    calculateMinTokensForGraduation 100000000000 ≠
      Int.tdiv (tokensOut 100000000000 * 90) 100 := by decide

/-- Claim C1, amended: at escrowBalance = 100 000 000 000 every intermediate
value is as the scenario computes (spendable = 99 985 500 000, k, finalBase =
129 985 500 000, finalTokens = k / finalBase truncating, tokensExpected =
virtualTokenReserves - finalTokens), but tokensExpected = 825 356 993 664 678
exceeds initialRealTokenReserves, so the ceiling clamp fires and the estimator
returns initialRealTokenReserves * 90 / 100 = 713 790 000 000 000 rather than
tokensExpected * 90 / 100 = 742 821 294 298 210. -/
theorem golden_scenario_clamped :
    SOL_TO_SPEND 100000000000 = 99985500000 ∧
    k = 30000000000 * 1073000000000000 ∧
    finalSol 100000000000 = 129985500000 ∧
    finalTokens 100000000000 = Int.tdiv k 129985500000 ∧
    tokensOut 100000000000 = VIRTUAL_TOKEN_RESERVES - finalTokens 100000000000 ∧
    tokensOut 100000000000 = 825356993664678 ∧
    Int.tdiv (tokensOut 100000000000 * 90) 100 = 742821294298210 ∧
    INITIAL_REAL_TOKEN_RESERVES < tokensOut 100000000000 ∧
    calculateMinTokensForGraduation 100000000000 = 713790000000000 := by decide

/-- Claim C2, counterexample: at spendable = 1 (escrowBalance = 14 500 001)
the truncated quotient finalTokens does not overestimate the exact rational
quotient k / finalBase; it is strictly below it. -/
theorem rounding_direction_counterexample :
    ¬ ((k : ℚ) / (finalSol 14500001 : ℚ) ≤ (finalTokens 14500001 : ℚ)) := by
  have h1 : finalTokens 14500001 = 1072999999964233 := by decide
  have h2 : finalSol 14500001 = 30000000001 := by decide
  have h3 : k = 32190000000000000000000000 := by decide
  rw [h1, h2, h3, not_le]
  have c1 : ((1072999999964233 : Int) : ℚ) = 1072999999964233 := by norm_num
  have c2 : ((32190000000000000000000000 : Int) : ℚ) = 32190000000000000000000000 := by
    norm_num
  have c3 : ((30000000001 : Int) : ℚ) = 30000000001 := by norm_num
  rw [c1, c2, c3, lt_div_iff₀ (by norm_num)]
  norm_num

/-- Claim C2, amended: for every escrowBalance with spendable > 0 the
truncated division underestimates finalTokens relative to the exact rational
quotient k / finalBase, and therefore overestimates tokensExpected =
virtualTokenReserves - finalTokens; the truncation errs on the aggressive
side for a slippage floor. -/
theorem rounding_direction_underestimates (e : Nat) (h : 0 < SOL_TO_SPEND e) :
    (finalTokens e : ℚ) ≤ (k : ℚ) / (finalSol e : ℚ) ∧
    (VIRTUAL_TOKEN_RESERVES : ℚ) - (k : ℚ) / (finalSol e : ℚ) ≤ (tokensOut e : ℚ) := by
  have g : ∀ m n : Nat, (((m / n : Nat) : Int) : ℚ) ≤ (((m : Nat) : Int) : ℚ) / (((n : Nat) : Int) : ℚ) := by
    intro m n
    push_cast
    exact Nat.cast_div_le
  have hk : k = ((32190000000000000000000000 : Nat) : Int) := by decide
  have hmain : (finalTokens e : ℚ) ≤ (k : ℚ) / (finalSol e : ℚ) := by
    rw [finalTokens_eq, finalSol_eq, hk]
    exact g 32190000000000000000000000 (e + 29985500000)
  refine ⟨hmain, ?_⟩
  have ht : (tokensOut e : ℚ) = (VIRTUAL_TOKEN_RESERVES : ℚ) - (finalTokens e : ℚ) := by
    rw [tokensOut]
    push_cast
    ring
  rw [ht]
  exact sub_le_sub_left hmain _

/-- Witness for the amended claim C2 at escrowBalance = 14 500 001. -/
theorem rounding_direction_underestimates_witness :
    (finalTokens 14500001 : ℚ) ≤ (k : ℚ) / (finalSol 14500001 : ℚ) ∧
    (VIRTUAL_TOKEN_RESERVES : ℚ) - (k : ℚ) / (finalSol 14500001 : ℚ) ≤
      (tokensOut 14500001 : ℚ) :=
  rounding_direction_underestimates 14500001 (by decide)

/-- Claim C3: on the normal path (positive tokensExpected, no clamp) the
estimator returns exactly tokensExpected * 90 / 100 in truncating integer
arithmetic, and the returned value never exceeds tokensExpected. -/
theorem normal_path_slippage_margin (e : Nat) (h1 : 0 < tokensOut e)
    (h2 : tokensOut e ≤ INITIAL_REAL_TOKEN_RESERVES) :
    calculateMinTokensForGraduation e = Int.tdiv (tokensOut e * 90) 100 ∧
    calculateMinTokensForGraduation e ≤ tokensOut e := by
  have heq : calculateMinTokensForGraduation e = Int.tdiv (tokensOut e * 90) 100 := by
    rw [calc_branches, if_neg (by omega), if_neg (by omega)]
  refine ⟨heq, ?_⟩
  rw [heq, tdiv_90_100_eq _ (le_of_lt h1)]
  have hle : (tokensOut e).toNat * 90 / 100 ≤ (tokensOut e).toNat :=
    nat_mul90_div100_le _
  have ht : (((tokensOut e).toNat : Nat) : Int) = tokensOut e :=
    Int.toNat_of_nonneg (le_of_lt h1)
  omega

/-- Witness for claim C3 at escrowBalance = 50 000 000 000. -/
theorem normal_path_slippage_margin_witness :
    calculateMinTokensForGraduation 50000000000 =
      Int.tdiv (tokensOut 50000000000 * 90) 100 ∧
    calculateMinTokensForGraduation 50000000000 ≤ tokensOut 50000000000 :=
  normal_path_slippage_margin 50000000000 (by decide) (by decide)

/-- Claim C4: whenever the computed tokensExpected exceeds
INITIAL_REAL_TOKEN_RESERVES, the estimator returns exactly
INITIAL_REAL_TOKEN_RESERVES * 90 / 100. -/
theorem ceiling_clamp (e : Nat) (h : INITIAL_REAL_TOKEN_RESERVES < tokensOut e) :
    calculateMinTokensForGraduation e =
      Int.tdiv (INITIAL_REAL_TOKEN_RESERVES * 90) 100 := by
  have h0 : (0 : Int) < tokensOut e :=
    lt_trans (by decide : (0 : Int) < INITIAL_REAL_TOKEN_RESERVES) h
  rw [calc_branches, if_neg (by omega), if_pos h]

/-- Witness for claim C4 at escrowBalance = 120 000 000 000. -/
theorem ceiling_clamp_witness :
    calculateMinTokensForGraduation 120000000000 =
      Int.tdiv (INITIAL_REAL_TOKEN_RESERVES * 90) 100 :=
  ceiling_clamp 120000000000 (by decide)

/-- Claim C5: every escrowBalance at or below ESTIMATED_COSTS (14 500 000,
covering both equality and shortfall) produces the zero-output result, while
escrowBalance = ESTIMATED_COSTS + 1 takes the normal non-error path: its
tokensExpected is positive and below the clamp, the returned value is
tokensExpected * 90 / 100, and that value is non-zero. -/
theorem insufficient_escrow_boundary :
    (∀ e : Nat, e ≤ 14500000 → calculateMinTokensForGraduation e = 0) ∧
    (0 < tokensOut 14500001 ∧
      tokensOut 14500001 ≤ INITIAL_REAL_TOKEN_RESERVES ∧
      calculateMinTokensForGraduation 14500001 =
        Int.tdiv (tokensOut 14500001 * 90) 100 ∧
      0 < calculateMinTokensForGraduation 14500001) := by
  constructor
  · intro e he
    rw [calc_branches, if_pos ((tokensOut_nonpos_iff e).2 he)]
  · exact ⟨by decide, by decide, by decide, by decide⟩

/-- Witness for claim C5 at the boundary escrowBalance = ESTIMATED_COSTS. -/
theorem insufficient_escrow_boundary_witness :
    calculateMinTokensForGraduation 14500000 = 0 :=
  insufficient_escrow_boundary.1 14500000 (by decide)

/-- Claim C6, counterexample: tokensExpected is not strictly increasing in
spendable: at spendable = 9 970 000 000 001 < 9 970 000 000 002 (escrow
balances 9 970 014 500 001 and 9 970 014 500 002) the two truncated quotients
coincide, so tokensExpected is equal at the two points. -/
theorem strict_monotonicity_counterexample :
    0 < SOL_TO_SPEND 9970014500001 ∧
    SOL_TO_SPEND 9970014500001 < SOL_TO_SPEND 9970014500002 ∧
    tokensOut 9970014500001 = tokensOut 9970014500002 := by decide

/-- Claim C6, amended: tokensExpected is weakly increasing in spendable for
all positive spendable amounts, and strictly increasing whenever the larger
point is still in the non-clamped range (its tokensExpected does not exceed
INITIAL_REAL_TOKEN_RESERVES). -/
theorem tokensOut_monotone :
    (∀ e1 e2 : Nat, 0 < SOL_TO_SPEND e1 → SOL_TO_SPEND e1 ≤ SOL_TO_SPEND e2 →
      tokensOut e1 ≤ tokensOut e2) ∧
    (∀ e1 e2 : Nat, 0 < SOL_TO_SPEND e1 → SOL_TO_SPEND e1 < SOL_TO_SPEND e2 →
      tokensOut e2 ≤ INITIAL_REAL_TOKEN_RESERVES → tokensOut e1 < tokensOut e2) := by
  constructor
  · intro e1 e2 hpos hle
    simp only [SOL_TO_SPEND, ESTIMATED_COSTS] at hpos hle
    have he12 : e1 ≤ e2 := by omega
    rw [tokensOut_eq, tokensOut_eq]
    have hmono :
        32190000000000000000000000 / (e2 + 29985500000) ≤
          32190000000000000000000000 / (e1 + 29985500000) :=
      div_antitone _ _ _ (by omega) (by omega)
    omega
  · intro e1 e2 hpos hlt hclamp
    simp only [SOL_TO_SPEND, ESTIMATED_COSTS] at hpos hlt
    have he12 : e1 < e2 := by omega
    have hIR : INITIAL_REAL_TOKEN_RESERVES = 793100000000000 := by decide
    rw [tokensOut_eq] at hclamp
    rw [hIR] at hclamp
    have hq2 : 279900000000000 ≤ 32190000000000000000000000 / (e2 + 29985500000) := by
      omega
    have hb2 : 279900000000000 * (e2 + 29985500000) ≤ 32190000000000000000000000 :=
      (Nat.le_div_iff_mul_le (by omega)).1 hq2
    have hb2le : e2 + 29985500000 ≤ 115005359056 := by omega
    have hbb : (e2 + 29985500000) * (e2 + 29985500000) ≤ 32190000000000000000000000 :=
      le_trans (Nat.mul_le_mul hb2le hb2le) (by norm_num)
    have hstrict :
        32190000000000000000000000 / (e2 + 29985500000) <
          32190000000000000000000000 / (e1 + 29985500000) :=
      div_strict_anti _ _ _ (by omega) (by omega) hbb
    rw [tokensOut_eq, tokensOut_eq]
    omega

/-- Witness for the amended claim C6: weak monotonicity between escrow
balances 14 500 001 and 14 500 002 and strict monotonicity between
14 500 001 and 50 000 000 000. -/
theorem tokensOut_monotone_witness :
    tokensOut 14500001 ≤ tokensOut 14500002 ∧
    tokensOut 14500001 < tokensOut 50000000000 :=
  ⟨tokensOut_monotone.1 14500001 14500002 (by decide) (by decide),
   tokensOut_monotone.2 14500001 50000000000 (by decide) (by decide) (by decide)⟩

/-- Claim C7: for every non-negative escrowBalance the arithmetic is safe:
the division denominator finalSol is strictly positive (no division by
zero; overflow is impossible in the arbitrary-precision integer domain the
embedding shares with BN.js), the result is zero exactly under the two
defined failure conditions (non-positive spendable, non-positive
tokensExpected), and every outcome is one of the three defined results. -/
theorem arithmetic_safety : ∀ e : Nat,
    0 < finalSol e ∧
    (calculateMinTokensForGraduation e = 0 ↔
      (SOL_TO_SPEND e ≤ 0 ∨ tokensOut e ≤ 0)) ∧
    (calculateMinTokensForGraduation e = 0 ∨
      calculateMinTokensForGraduation e = Int.tdiv (tokensOut e * 90) 100 ∨
      calculateMinTokensForGraduation e =
        Int.tdiv (INITIAL_REAL_TOKEN_RESERVES * 90) 100) := by
  intro e
  refine ⟨?_, ⟨?_, ?_⟩, ?_⟩
  · rw [finalSol_eq]
    omega
  · intro hz
    by_cases ht : tokensOut e ≤ 0
    · exact Or.inr ht
    · exfalso
      have he : 14500001 ≤ e := by
        by_contra hc
        push_neg at hc
        have : tokensOut e ≤ 0 := (tokensOut_nonpos_iff e).2 (by omega)
        omega
      have hlow := tokensOut_lower e he
      rw [calc_branches, if_neg (by omega)] at hz
      by_cases hcl : INITIAL_REAL_TOKEN_RESERVES < tokensOut e
      · rw [if_pos hcl] at hz
        exact absurd hz (by decide)
      · rw [if_neg hcl, tdiv_90_100_eq _ (by omega)] at hz
        have htn : 35767 ≤ (tokensOut e).toNat := by
          have := Int.toNat_of_nonneg (by omega : (0 : Int) ≤ tokensOut e)
          omega
        have hge : 1 ≤ (tokensOut e).toNat * 90 / 100 :=
          (Nat.le_div_iff_mul_le (by norm_num)).2 (by omega)
        omega
  · intro hd
    have ht : tokensOut e ≤ 0 := by
      rcases hd with hs | ht
      · exact (tokensOut_nonpos_iff e).2 ((spend_nonpos_iff e).1 hs)
      · exact ht
    rw [calc_branches, if_pos ht]
  · rw [calc_branches]
    by_cases h1 : tokensOut e ≤ 0
    · rw [if_pos h1]
      exact Or.inl rfl
    · rw [if_neg h1]
      by_cases h2 : INITIAL_REAL_TOKEN_RESERVES < tokensOut e
      · rw [if_pos h2]
        exact Or.inr (Or.inr rfl)
      · rw [if_neg h2]
        exact Or.inr (Or.inl rfl)

/-- Claim C8: the graduation-threshold comparison is advisory only: the
value component of the routine that records the threshold comparison always
equals the value of the same computation with the comparison removed, and
the comparison only produces the warning flag. -/
theorem graduation_threshold_advisory : ∀ e : Nat,
    (calculateMinTokensForGraduationWithWarning e).1 =
      calculateMinTokensForGraduation e ∧
    (calculateMinTokensForGraduationWithWarning e).2 =
      decide (SOL_TO_SPEND e < GRADUATION_THRESHOLD) := by
  intro e
  simp only [calculateMinTokensForGraduationWithWarning,
    calculateMinTokensForGraduation]
  by_cases h1 : tokensOut e ≤ 0
  · simp [h1]
  · by_cases h2 : INITIAL_REAL_TOKEN_RESERVES < tokensOut e
    · simp [h1, h2]
    · simp [h1, h2]

/-- Claim C9: on every path the estimator returns a non-negative value no
greater than INITIAL_REAL_TOKEN_RESERVES * 90 / 100 = 713 790 000 000 000. -/
theorem global_output_bound : ∀ e : Nat,
    0 ≤ calculateMinTokensForGraduation e ∧
    calculateMinTokensForGraduation e ≤
      Int.tdiv (INITIAL_REAL_TOKEN_RESERVES * 90) 100 := by
  intro e
  rw [calc_branches]
  by_cases h1 : tokensOut e ≤ 0
  · rw [if_pos h1]
    exact ⟨le_refl 0, by decide⟩
  · rw [if_neg h1]
    by_cases h2 : INITIAL_REAL_TOKEN_RESERVES < tokensOut e
    · rw [if_pos h2]
      exact ⟨by decide, le_refl _⟩
    · rw [if_neg h2, tdiv_90_100_eq _ (by omega)]
      have hIR : INITIAL_REAL_TOKEN_RESERVES = 793100000000000 := by decide
      have htn : (tokensOut e).toNat ≤ 793100000000000 := by
        have := Int.toNat_of_nonneg (by omega : (0 : Int) ≤ tokensOut e)
        rw [hIR] at h2
        omega
      have hb : (tokensOut e).toNat * 90 / 100 ≤ 793100000000000 * 90 / 100 :=
        Nat.div_le_div_right (Nat.mul_le_mul htn (le_refl 90))
      have hval : (793100000000000 * 90 / 100 : Nat) = 713790000000000 := by norm_num
      have hrhs : Int.tdiv (INITIAL_REAL_TOKEN_RESERVES * 90) 100 = 713790000000000 := by
        decide
      rw [hrhs]
      exact ⟨by omega, by omega⟩

/-- Claim C10: when the caller supplies a minTokensOut value (including 0)
the finalize instruction carries exactly that value and the estimator result
is irrelevant; the automatic estimation runs exactly when the argument is
none, the embedding of the JS default null. -/
theorem estimator_bypass :
    (∀ (v : Int) (e : Nat), buildFinalizeMinTokens e (some v) = v) ∧
    (∀ e : Nat,
      buildFinalizeMinTokens e none = calculateMinTokensForGraduation e) :=
  ⟨fun _ _ => rfl, fun _ => rfl⟩

end BundlyAgent
